import Mathlib

/-!
Verification of the comic-page / bubble SVG geometry engine.

The repository computes comic-page panel layouts (with straight / arrow /
lightning panel splits) and speech / thought bubble paths.  All geometry is
embedded here over the real numbers: points are pairs `ℝ × ℝ`, the drawing
surface is modelled as the list of emitted geometric shapes, and SVG paths
are modelled as lists of structured path segments.  Definition names follow
the Python source (`make_comic_page.py`, `speechbobs.py`, `thought_bubble.py`).
-/

noncomputable section

/-- Euclidean norm of a 2-vector, as the source computes it with `math.sqrt`. -/
def vecNorm (v : ℝ × ℝ) : ℝ := Real.sqrt (v.1 ^ 2 + v.2 ^ 2)

namespace MakeComicPage

/-- Side selector for `get_normal_shift_vector`: the source branches on the
string `'right'`, treating anything else as left. -/
inductive Dir where
  | right : Dir
  | left : Dir
deriving DecidableEq

/-- Split style tag.  The source branches on the strings `'straight'`,
`'arrow'`, `'lightning'`; `other` stands for any unrecognized tag. -/
inductive SplitType where
  | straight : SplitType
  | arrow : SplitType
  | lightning : SplitType
  | other : SplitType
deriving DecidableEq

/-- The `split_params` dictionary: each ratio may be absent, in which case
the source's `split_params.get(key, default)` supplies the default. -/
structure SplitParams where
  top_x_ratio : Option ℝ := none
  bot_x_ratio : Option ℝ := none
  mid_y_ratio : Option ℝ := none
  depth_x_ratio : Option ℝ := none
  zig_y_ratio : Option ℝ := none
  zig_depth_x_ratio : Option ℝ := none
  zag_y_ratio : Option ℝ := none
  zag_depth_x_ratio : Option ℝ := none

/-- A shape emitted to the drawing surface (`dwg.add` in the source); style
attributes (stroke, fill, width) are carried by the external drawing surface
and are not part of the geometry. -/
inductive Shape where
  | rect (insert : ℝ × ℝ) (size : ℝ × ℝ) : Shape
  | polygon (points : List (ℝ × ℝ)) : Shape
deriving DecidableEq

/-- `add_shift(point, shift)`: component-wise sum. -/
def add_shift (point shift : ℝ × ℝ) : ℝ × ℝ :=
  (point.1 + shift.1, point.2 + shift.2)

/-- `get_normal_shift_vector(p1, p2, magnitude, direction)`: the vector
perpendicular to segment p1→p2 scaled to `magnitude`; returns `(0, 0)` when
the normal has zero magnitude. -/
def get_normal_shift_vector (p1 p2 : ℝ × ℝ) (magnitude : ℝ) (direction : Dir) :
    ℝ × ℝ :=
  let V_x := p2.1 - p1.1
  let V_y := p2.2 - p1.2
  let N_x := if direction = Dir.right then V_y else -V_y
  let N_y := if direction = Dir.right then -V_x else V_x
  let N_magnitude := Real.sqrt (N_x ^ 2 + N_y ^ 2)
  if N_magnitude = 0 then (0, 0)
  else
    let U_x := N_x / N_magnitude
    let U_y := N_y / N_magnitude
    (U_x * magnitude, U_y * magnitude)

/-- `get_line_intersection(p1, p2, p3, p4)`: intersection of the two infinite
lines through (p1,p2) and (p3,p4) by the determinant method; `none` when the
determinant is exactly zero. -/
def get_line_intersection (p1 p2 p3 p4 : ℝ × ℝ) : Option (ℝ × ℝ) :=
  let a1 := p2.2 - p1.2
  let b1 := p1.1 - p2.1
  let c1 := a1 * p1.1 + b1 * p1.2
  let a2 := p4.2 - p3.2
  let b2 := p3.1 - p4.1
  let c2 := a2 * p3.1 + b2 * p3.2
  let det := a1 * b2 - a2 * b1
  if det = 0 then none
  else some ((b2 * c1 - b1 * c2) / det, (a1 * c2 - a2 * c1) / det)

/-!
`draw_split_panels(dwg, x_start_p1, y_top, panel_width, panel_height, gutter,
panel_stroke, panel_fill, split_type, split_params)`.

The local variables of the Python function are embedded as one definition
each, all parameterized by `(x, y, w, h, g, ps)` standing for
`(x_start_p1, y_top, panel_width, panel_height, gutter, split_params)`.
The function itself returns the list of polygons added to the drawing
surface together with the returned x-coordinate `x_end_p2`.
-/

/-- `P1_WIDTH = (panel_width - gutter) / 2`. -/
def P1_WIDTH (w g : ℝ) : ℝ := (w - g) / 2

/-- `x_end_p1 = x_start_p1 + P1_WIDTH`. -/
def x_end_p1 (x w g : ℝ) : ℝ := x + P1_WIDTH w g

/-- `x_start_p2 = x_end_p1 + gutter`. -/
def x_start_p2 (x w g : ℝ) : ℝ := x_end_p1 x w g + g

/-- `x_end_p2 = x_start_p2 + P1_WIDTH`. -/
def x_end_p2 (x w g : ℝ) : ℝ := x_start_p2 x w g + P1_WIDTH w g

/-- `y_bottom = y_top + panel_height`. -/
def y_bottom (y h : ℝ) : ℝ := y + h

/-- `calc_x_ratio(ratio) = x_start_p1 + P1_WIDTH * ratio`. -/
def calc_x_ratio (x w g r : ℝ) : ℝ := x + P1_WIDTH w g * r

/-- Straight split, `P1_TOP_L`. -/
def straight_P1_TOP_L (x y w h g : ℝ) (ps : SplitParams) : ℝ × ℝ :=
  (calc_x_ratio x w g (ps.top_x_ratio.getD 1.3), y)

/-- Straight split, `P1_BOT_L`. -/
def straight_P1_BOT_L (x y w h g : ℝ) (ps : SplitParams) : ℝ × ℝ :=
  (calc_x_ratio x w g (ps.bot_x_ratio.getD 0.7), y_bottom y h)

/-- Straight split, `P2_TOP_R`. -/
def straight_P2_TOP_R (x y w h g : ℝ) (ps : SplitParams) : ℝ × ℝ :=
  ((straight_P1_TOP_L x y w h g ps).1 + g, (straight_P1_TOP_L x y w h g ps).2)

/-- Straight split, `P2_BOT_R`. -/
def straight_P2_BOT_R (x y w h g : ℝ) (ps : SplitParams) : ℝ × ℝ :=
  ((straight_P1_BOT_L x y w h g ps).1 + g, (straight_P1_BOT_L x y w h g ps).2)

/-- Straight split, `p1_points` (left panel, clockwise). -/
def straight_p1_points (x y w h g : ℝ) (ps : SplitParams) : List (ℝ × ℝ) :=
  [(x, y), straight_P1_TOP_L x y w h g ps, straight_P1_BOT_L x y w h g ps,
    (x, y_bottom y h)]

/-- Straight split, `p2_points` (right panel, clockwise). -/
def straight_p2_points (x y w h g : ℝ) (ps : SplitParams) : List (ℝ × ℝ) :=
  [(x_end_p2 x w g, y), (x_end_p2 x w g, y_bottom y h),
    (x_start_p2 x w g, y_bottom y h), straight_P2_BOT_R x y w h g ps,
    straight_P2_TOP_R x y w h g ps]

/-- Arrow split, `P1_TOP_L`. -/
def arrow_P1_TOP_L (x y w h g : ℝ) (ps : SplitParams) : ℝ × ℝ :=
  (calc_x_ratio x w g (ps.top_x_ratio.getD 1.3), y)

/-- Arrow split, `P1_MID_L` (the arrow tip). -/
def arrow_P1_MID_L (x y w h g : ℝ) (ps : SplitParams) : ℝ × ℝ :=
  (calc_x_ratio x w g (ps.depth_x_ratio.getD 0.8),
    y + h * (ps.mid_y_ratio.getD 0.5))

/-- Arrow split, `P1_BOT_L`. -/
def arrow_P1_BOT_L (x y w h g : ℝ) (ps : SplitParams) : ℝ × ℝ :=
  (calc_x_ratio x w g (ps.bot_x_ratio.getD 0.7), y_bottom y h)

/-- Arrow split, `P2_TOP_R`. -/
def arrow_P2_TOP_R (x y w h g : ℝ) (ps : SplitParams) : ℝ × ℝ :=
  ((arrow_P1_TOP_L x y w h g ps).1 + g, (arrow_P1_TOP_L x y w h g ps).2)

/-- Arrow split, `P2_MID_R`. -/
def arrow_P2_MID_R (x y w h g : ℝ) (ps : SplitParams) : ℝ × ℝ :=
  ((arrow_P1_MID_L x y w h g ps).1 + g, (arrow_P1_MID_L x y w h g ps).2)

/-- Arrow split, `P2_BOT_R`. -/
def arrow_P2_BOT_R (x y w h g : ℝ) (ps : SplitParams) : ℝ × ℝ :=
  ((arrow_P1_BOT_L x y w h g ps).1 + g, (arrow_P1_BOT_L x y w h g ps).2)

/-- Arrow split, `p1_points` (left panel, clockwise). -/
def arrow_p1_points (x y w h g : ℝ) (ps : SplitParams) : List (ℝ × ℝ) :=
  [(x, y), arrow_P1_TOP_L x y w h g ps, arrow_P1_MID_L x y w h g ps,
    arrow_P1_BOT_L x y w h g ps, (x, y_bottom y h)]

/-- Arrow split, `p2_points` (right panel, clockwise). -/
def arrow_p2_points (x y w h g : ℝ) (ps : SplitParams) : List (ℝ × ℝ) :=
  [(x_end_p2 x w g, y), (x_end_p2 x w g, y_bottom y h),
    (x_start_p2 x w g, y_bottom y h), arrow_P2_BOT_R x y w h g ps,
    arrow_P2_MID_R x y w h g ps, arrow_P2_TOP_R x y w h g ps]

/-- Lightning split, center-line point `A_C`. -/
def lightning_A_C (x y w h g : ℝ) (ps : SplitParams) : ℝ × ℝ :=
  (calc_x_ratio x w g (ps.top_x_ratio.getD 1.3), y)

/-- Lightning split, center-line point `B_C`. -/
def lightning_B_C (x y w h g : ℝ) (ps : SplitParams) : ℝ × ℝ :=
  (calc_x_ratio x w g (ps.zig_depth_x_ratio.getD 1.0),
    y + h * (ps.zig_y_ratio.getD 0.60))

/-- Lightning split, center-line point `C_C`. -/
def lightning_C_C (x y w h g : ℝ) (ps : SplitParams) : ℝ × ℝ :=
  (calc_x_ratio x w g (ps.zag_depth_x_ratio.getD 0.9),
    y + h * (ps.zag_y_ratio.getD 0.55))

/-- Lightning split, center-line point `D_C`. -/
def lightning_D_C (x y w h g : ℝ) (ps : SplitParams) : ℝ × ℝ :=
  (calc_x_ratio x w g (ps.bot_x_ratio.getD 0.7), y_bottom y h)

/-- Lightning split, `S_AB_R` (`SHIFT = gutter / 2`). -/
def lightning_S_AB_R (x y w h g : ℝ) (ps : SplitParams) : ℝ × ℝ :=
  get_normal_shift_vector (lightning_A_C x y w h g ps)
    (lightning_B_C x y w h g ps) (g / 2) Dir.right

/-- Lightning split, `S_BC_R`. -/
def lightning_S_BC_R (x y w h g : ℝ) (ps : SplitParams) : ℝ × ℝ :=
  get_normal_shift_vector (lightning_B_C x y w h g ps)
    (lightning_C_C x y w h g ps) (g / 2) Dir.right

/-- Lightning split, `S_CD_R`. -/
def lightning_S_CD_R (x y w h g : ℝ) (ps : SplitParams) : ℝ × ℝ :=
  get_normal_shift_vector (lightning_C_C x y w h g ps)
    (lightning_D_C x y w h g ps) (g / 2) Dir.right

/-- Lightning split, `S_AB_L`. -/
def lightning_S_AB_L (x y w h g : ℝ) (ps : SplitParams) : ℝ × ℝ :=
  get_normal_shift_vector (lightning_A_C x y w h g ps)
    (lightning_B_C x y w h g ps) (g / 2) Dir.left

/-- Lightning split, `S_BC_L`. -/
def lightning_S_BC_L (x y w h g : ℝ) (ps : SplitParams) : ℝ × ℝ :=
  get_normal_shift_vector (lightning_B_C x y w h g ps)
    (lightning_C_C x y w h g ps) (g / 2) Dir.left

/-- Lightning split, `S_CD_L`. -/
def lightning_S_CD_L (x y w h g : ℝ) (ps : SplitParams) : ℝ × ℝ :=
  get_normal_shift_vector (lightning_C_C x y w h g ps)
    (lightning_D_C x y w h g ps) (g / 2) Dir.left

/-- Lightning split, raw shifted point `E_raw = A_C + S_AB_R`. -/
def lightning_E_raw (x y w h g : ℝ) (ps : SplitParams) : ℝ × ℝ :=
  add_shift (lightning_A_C x y w h g ps) (lightning_S_AB_R x y w h g ps)

/-- Lightning split, raw shifted point `B_prime_AB_R`. -/
def lightning_B_prime_AB_R (x y w h g : ℝ) (ps : SplitParams) : ℝ × ℝ :=
  add_shift (lightning_B_C x y w h g ps) (lightning_S_AB_R x y w h g ps)

/-- Lightning split, raw shifted point `B_prime_BC_R`. -/
def lightning_B_prime_BC_R (x y w h g : ℝ) (ps : SplitParams) : ℝ × ℝ :=
  add_shift (lightning_B_C x y w h g ps) (lightning_S_BC_R x y w h g ps)

/-- Lightning split, raw shifted point `C_prime_BC_R`. -/
def lightning_C_prime_BC_R (x y w h g : ℝ) (ps : SplitParams) : ℝ × ℝ :=
  add_shift (lightning_C_C x y w h g ps) (lightning_S_BC_R x y w h g ps)

/-- Lightning split, raw shifted point `C_prime_CD_R`. -/
def lightning_C_prime_CD_R (x y w h g : ℝ) (ps : SplitParams) : ℝ × ℝ :=
  add_shift (lightning_C_C x y w h g ps) (lightning_S_CD_R x y w h g ps)

/-- Lightning split, raw shifted point `D_prime_R`. -/
def lightning_D_prime_R (x y w h g : ℝ) (ps : SplitParams) : ℝ × ℝ :=
  add_shift (lightning_D_C x y w h g ps) (lightning_S_CD_R x y w h g ps)

/-- Lightning split, raw shifted point `I_raw = A_C + S_AB_L`. -/
def lightning_I_raw (x y w h g : ℝ) (ps : SplitParams) : ℝ × ℝ :=
  add_shift (lightning_A_C x y w h g ps) (lightning_S_AB_L x y w h g ps)

/-- Lightning split, raw shifted point `B_prime_AB_L`. -/
def lightning_B_prime_AB_L (x y w h g : ℝ) (ps : SplitParams) : ℝ × ℝ :=
  add_shift (lightning_B_C x y w h g ps) (lightning_S_AB_L x y w h g ps)

/-- Lightning split, raw shifted point `B_prime_BC_L`. -/
def lightning_B_prime_BC_L (x y w h g : ℝ) (ps : SplitParams) : ℝ × ℝ :=
  add_shift (lightning_B_C x y w h g ps) (lightning_S_BC_L x y w h g ps)

/-- Lightning split, raw shifted point `C_prime_BC_L`. -/
def lightning_C_prime_BC_L (x y w h g : ℝ) (ps : SplitParams) : ℝ × ℝ :=
  add_shift (lightning_C_C x y w h g ps) (lightning_S_BC_L x y w h g ps)

/-- Lightning split, raw shifted point `C_prime_CD_L`. -/
def lightning_C_prime_CD_L (x y w h g : ℝ) (ps : SplitParams) : ℝ × ℝ :=
  add_shift (lightning_C_C x y w h g ps) (lightning_S_CD_L x y w h g ps)

/-- Lightning split, raw shifted point `D_prime_L`. -/
def lightning_D_prime_L (x y w h g : ℝ) (ps : SplitParams) : ℝ × ℝ :=
  add_shift (lightning_D_C x y w h g ps) (lightning_S_CD_L x y w h g ps)

/-- Lightning split, jagged corner `F` (fallback `B_prime_AB_R`). -/
def lightning_F (x y w h g : ℝ) (ps : SplitParams) : ℝ × ℝ :=
  (get_line_intersection (lightning_E_raw x y w h g ps)
    (lightning_B_prime_AB_R x y w h g ps) (lightning_B_prime_BC_R x y w h g ps)
    (lightning_C_prime_BC_R x y w h g ps)).getD
    (lightning_B_prime_AB_R x y w h g ps)

/-- Lightning split, jagged corner `G` (fallback `C_prime_BC_R`). -/
def lightning_G (x y w h g : ℝ) (ps : SplitParams) : ℝ × ℝ :=
  (get_line_intersection (lightning_B_prime_BC_R x y w h g ps)
    (lightning_C_prime_BC_R x y w h g ps) (lightning_C_prime_CD_R x y w h g ps)
    (lightning_D_prime_R x y w h g ps)).getD
    (lightning_C_prime_BC_R x y w h g ps)

/-- Lightning split, jagged corner `J` (fallback `B_prime_AB_L`). -/
def lightning_J (x y w h g : ℝ) (ps : SplitParams) : ℝ × ℝ :=
  (get_line_intersection (lightning_I_raw x y w h g ps)
    (lightning_B_prime_AB_L x y w h g ps) (lightning_B_prime_BC_L x y w h g ps)
    (lightning_C_prime_BC_L x y w h g ps)).getD
    (lightning_B_prime_AB_L x y w h g ps)

/-- Lightning split, jagged corner `K` (fallback `C_prime_BC_L`). -/
def lightning_K (x y w h g : ℝ) (ps : SplitParams) : ℝ × ℝ :=
  (get_line_intersection (lightning_B_prime_BC_L x y w h g ps)
    (lightning_C_prime_BC_L x y w h g ps) (lightning_C_prime_CD_L x y w h g ps)
    (lightning_D_prime_L x y w h g ps)).getD
    (lightning_C_prime_BC_L x y w h g ps)

/-- Lightning split, seal point `E_top` on the top edge (fallback `E_raw`). -/
def lightning_E_top (x y w h g : ℝ) (ps : SplitParams) : ℝ × ℝ :=
  (get_line_intersection (lightning_E_raw x y w h g ps)
    (lightning_F x y w h g ps) (x, y) (x_end_p2 x w g, y)).getD
    (lightning_E_raw x y w h g ps)

/-- Lightning split, seal point `H_bot` on the bottom edge (fallback
`D_prime_R`). -/
def lightning_H_bot (x y w h g : ℝ) (ps : SplitParams) : ℝ × ℝ :=
  (get_line_intersection (lightning_G x y w h g ps)
    (lightning_D_prime_R x y w h g ps) (x, y_bottom y h)
    (x_end_p2 x w g, y_bottom y h)).getD (lightning_D_prime_R x y w h g ps)

/-- Lightning split, seal point `I_top` on the top edge (fallback `I_raw`). -/
def lightning_I_top (x y w h g : ℝ) (ps : SplitParams) : ℝ × ℝ :=
  (get_line_intersection (lightning_I_raw x y w h g ps)
    (lightning_J x y w h g ps) (x, y) (x_end_p2 x w g, y)).getD
    (lightning_I_raw x y w h g ps)

/-- Lightning split, seal point `L_bot` on the bottom edge (fallback
`D_prime_L`). -/
def lightning_L_bot (x y w h g : ℝ) (ps : SplitParams) : ℝ × ℝ :=
  (get_line_intersection (lightning_K x y w h g ps)
    (lightning_D_prime_L x y w h g ps) (x, y_bottom y h)
    (x_end_p2 x w g, y_bottom y h)).getD (lightning_D_prime_L x y w h g ps)

/-- Lightning split, `p1_points`: top-left corner, then `boundary_L =
[I_top, J, K, L_bot]`, then bottom-left corner. -/
def lightning_p1_points (x y w h g : ℝ) (ps : SplitParams) : List (ℝ × ℝ) :=
  [(x, y), lightning_I_top x y w h g ps, lightning_J x y w h g ps,
    lightning_K x y w h g ps, lightning_L_bot x y w h g ps, (x, y_bottom y h)]

/-- Lightning split, `p2_points`: right rectangle corners, then the right
boundary traversed bottom-to-top `[H_bot, G, F, E_top]`. -/
def lightning_p2_points (x y w h g : ℝ) (ps : SplitParams) : List (ℝ × ℝ) :=
  [(x_end_p2 x w g, y), (x_end_p2 x w g, y_bottom y h),
    (x_start_p2 x w g, y_bottom y h), lightning_H_bot x y w h g ps,
    lightning_G x y w h g ps, lightning_F x y w h g ps,
    lightning_E_top x y w h g ps]

/-- `draw_split_panels`: the polygons added to the drawing surface and the
returned x-coordinate.  An unknown split type reports an error, draws
nothing, and returns `x_end_p2` unchanged. -/
def draw_split_panels (x y w h g : ℝ) (st : SplitType) (ps : SplitParams) :
    List Shape × ℝ :=
  match st with
  | SplitType.straight =>
      ([Shape.polygon (straight_p1_points x y w h g ps),
        Shape.polygon (straight_p2_points x y w h g ps)], x_end_p2 x w g)
  | SplitType.arrow =>
      ([Shape.polygon (arrow_p1_points x y w h g ps),
        Shape.polygon (arrow_p2_points x y w h g ps)], x_end_p2 x w g)
  | SplitType.lightning =>
      ([Shape.polygon (lightning_p1_points x y w h g ps),
        Shape.polygon (lightning_p2_points x y w h g ps)], x_end_p2 x w g)
  | SplitType.other => ([], x_end_p2 x w g)

/-- The vertex lists of the polygons emitted by `draw_split_panels`. -/
def splitPolys (x y w h g : ℝ) (st : SplitType) (ps : SplitParams) :
    List (List (ℝ × ℝ)) :=
  (draw_split_panels x y w h g st ps).1.filterMap fun s =>
    match s with
    | Shape.polygon pts => some pts
    | Shape.rect _ _ => none

/-- Vertex `j` of emitted polygon `i` of `draw_split_panels`. -/
def splitVertex (x y w h g : ℝ) (st : SplitType) (ps : SplitParams)
    (i j : ℕ) : ℝ × ℝ :=
  ((splitPolys x y w h g st ps).getD i []).getD j (0, 0)

/-- Concrete lightning-split ratios whose center polyline is
`(0,0) → (30,40) → (70,70) → (100,110)` for a call with
`x = 0, y = 0, w = 210, h = 110, g = 10` (so `P1_WIDTH = 100`): every
segment has length a multiple of 5, keeping all offset geometry rational. -/
def lightningCexParams : SplitParams :=
  ⟨some 0, some 1, none, none, some (4 / 11), some (3 / 10), some (7 / 11),
    some (7 / 10)⟩

/-!
`make_comic_page(...)`: the page layout engine.  The drawing surface is
modelled as the list of shapes added, in order of emission.
-/

/-- The column loop of `make_comic_page` (`while c < total_cols`): draws a
split pair (advancing the column cursor by 2, inserting a trailing gutter if
another panel follows) or a standard rectangle (advancing by 1). -/
def draw_cols (total_cols : ℕ) (r : ℕ) (split_panels : List (ℕ × ℕ))
    (x y standard_panel_width panel_height gutter : ℝ) (st : SplitType)
    (ps : SplitParams) (c : ℕ) : List Shape :=
  if c < total_cols then
    if (r, c) ∈ split_panels ∧ c + 1 < total_cols then
      let res := draw_split_panels x y (standard_panel_width * 2 + gutter)
        panel_height gutter st ps
      let x2 := if c + 2 < total_cols then res.2 + gutter else res.2
      res.1 ++ draw_cols total_cols r split_panels x2 y standard_panel_width
        panel_height gutter st ps (c + 2)
    else
      Shape.rect (x, y) (standard_panel_width, panel_height) ::
        draw_cols total_cols r split_panels (x + standard_panel_width + gutter)
          y standard_panel_width panel_height gutter st ps (c + 1)
  else []
termination_by total_cols - c
decreasing_by all_goals omega

/-- The row loop of `make_comic_page`: each row computes its standard panel
width, runs the column loop starting at `x = margin`, and advances `y` by
`panel_height + gutter`. -/
def draw_rows (width margin gutter panel_height : ℝ)
    (split_panels : List (ℕ × ℕ)) (st : SplitType) (ps : SplitParams) :
    List ℕ → ℕ → ℝ → List Shape
  | [], _, _ => []
  | total_cols :: rest, r, y =>
      let standard_panel_width :=
        (width - 2 * margin - ((total_cols - 1 : ℕ) : ℝ) * gutter) /
          (total_cols : ℝ)
      draw_cols total_cols r split_panels margin y standard_panel_width
          panel_height gutter st ps 0 ++
        draw_rows width margin gutter panel_height split_panels st ps rest
          (r + 1) (y + panel_height + gutter)

/-- `make_comic_page`: background rectangle, then the rows of panels.  An
empty row configuration produces a background-only page. -/
def make_comic_page (width height : ℝ) (row_config : List ℕ)
    (margin gutter : ℝ) (split_panels : List (ℕ × ℕ)) (st : SplitType)
    (ps : SplitParams) : List Shape :=
  let bg := Shape.rect (0, 0) (width, height)
  let total_rows := row_config.length
  if total_rows = 0 then [bg]
  else
    let panel_height :=
      (height - 2 * margin - ((total_rows - 1 : ℕ) : ℝ) * gutter) /
        (total_rows : ℝ)
    bg :: draw_rows width margin gutter panel_height split_panels st ps
      row_config 0 margin

end MakeComicPage

/-!
The bubble path builders (`speechbobs.py` and `thought_bubble.py`).  SVG
path strings are embedded as lists of structured path segments.
-/

/-- A segment of an SVG path as emitted by the bubble builders: `M`, `A`
(radii, x-axis rotation, large-arc flag, sweep flag, endpoint) or `Q`
(control point, endpoint). -/
inductive PathSeg where
  | moveTo (p : ℝ × ℝ) : PathSeg
  | arcTo (rx ry rot : ℝ) (largeArc sweep : Bool) (p : ℝ × ℝ) : PathSeg
  | quadTo (control p : ℝ × ℝ) : PathSeg
deriving DecidableEq

/-- `math.radians`: degrees to radians. -/
def radians (degrees : ℝ) : ℝ := degrees * (Real.pi / 180)

/-- Translate a point by an offset vector. -/
def translatePoint (o p : ℝ × ℝ) : ℝ × ℝ := (p.1 + o.1, p.2 + o.2)

/-- Translate a path segment by an offset vector (radii, rotation and flags
are unchanged). -/
def translateSeg (o : ℝ × ℝ) : PathSeg → PathSeg
  | PathSeg.moveTo p => PathSeg.moveTo (translatePoint o p)
  | PathSeg.arcTo rx ry rot la sw p =>
      PathSeg.arcTo rx ry rot la sw (translatePoint o p)
  | PathSeg.quadTo c p =>
      PathSeg.quadTo (translatePoint o c) (translatePoint o p)

/-- The endpoint of a path segment. -/
def segPoint : PathSeg → ℝ × ℝ
  | PathSeg.moveTo p => p
  | PathSeg.arcTo _ _ _ _ _ p => p
  | PathSeg.quadTo _ p => p

/-- Membership of a point on the ellipse of radii `(rx, ry)` centered at
`(cx, cy)`. -/
def onEllipse (cx cy rx ry : ℝ) (p : ℝ × ℝ) : Prop :=
  ((p.1 - cx) / rx) ^ 2 + ((p.2 - cy) / ry) ^ 2 = 1

namespace SpeechBobs

/-- `WIDTH, HEIGHT = 800, 600`; `CENTER_X = WIDTH / 2`. -/
def CENTER_X : ℝ := 800 / 2

/-- `CENTER_Y = HEIGHT / 2`. -/
def CENTER_Y : ℝ := 600 / 2

/-- `RX = 150`, the ellipse's horizontal radius. -/
def RX : ℝ := 150

/-- `RY = 100`, the ellipse's vertical radius. -/
def RY : ℝ := 100

/-- `calculate_full_bubble_path_from_angle`: the closed path for the oval
bubble body plus the bent tail — move to `P1`, large arc to `P2`, quadratic
curve through `C1` to the tip, quadratic curve through `C2` back to `P1`. -/
def calculate_full_bubble_path_from_angle (angle_degrees : ℝ)
    (offset_x offset_y : ℝ) (tail_length : ℝ) : List PathSeg :=
  let ANGLE_RAD := radians angle_degrees
  let TIP_EXTENSION := tail_length
  let OFFSET_RAD := radians 5
  let CURVE_BEND_ANGLE := radians 2
  let curve_bend_radius_ratio : ℝ := 0.6
  let P1_X := (CENTER_X + offset_x) + RX * Real.sin (ANGLE_RAD - OFFSET_RAD)
  let P1_Y := (CENTER_Y + offset_y) - RY * Real.cos (ANGLE_RAD - OFFSET_RAD)
  let P2_X := (CENTER_X + offset_x) + RX * Real.sin (ANGLE_RAD + OFFSET_RAD)
  let P2_Y := (CENTER_Y + offset_y) - RY * Real.cos (ANGLE_RAD + OFFSET_RAD)
  let R_Tip := RX + TIP_EXTENSION
  let P_Tip_X := (CENTER_X + offset_x) + R_Tip * Real.sin ANGLE_RAD
  let P_Tip_Y := (CENTER_Y + offset_y) - R_Tip * Real.cos ANGLE_RAD
  let R_C1 := RX + TIP_EXTENSION * curve_bend_radius_ratio
  let Angle_C1 := ANGLE_RAD + CURVE_BEND_ANGLE
  let C1_X := (CENTER_X + offset_x) + R_C1 * Real.sin Angle_C1
  let C1_Y := (CENTER_Y + offset_y) - R_C1 * Real.cos Angle_C1
  let R_C2 := RX + TIP_EXTENSION * curve_bend_radius_ratio
  let Angle_C2 := ANGLE_RAD - CURVE_BEND_ANGLE
  let C2_X := (CENTER_X + offset_x) + R_C2 * Real.sin Angle_C2
  let C2_Y := (CENTER_Y + offset_y) - R_C2 * Real.cos Angle_C2
  [PathSeg.moveTo (P1_X, P1_Y),
    PathSeg.arcTo RX RY 0 true false (P2_X, P2_Y),
    PathSeg.quadTo (C1_X, C1_Y) (P_Tip_X, P_Tip_Y),
    PathSeg.quadTo (C2_X, C2_Y) (P1_X, P1_Y)]

end SpeechBobs

namespace ThoughtBubble

/-- `WIDTH, HEIGHT = 800, 600`; `CENTER_X = WIDTH / 2`. -/
def CENTER_X : ℝ := 800 / 2

/-- `CENTER_Y = HEIGHT / 2`. -/
def CENTER_Y : ℝ := 600 / 2

/-- `RX = 150`. -/
def RX : ℝ := 150

/-- `RY = 100`. -/
def RY : ℝ := 100

/-- `CLOUD_RADIUS = 130`, base size of the cloud body. -/
def CLOUD_RADIUS : ℝ := 130

/-- `calculate_speech_bubble_path`: identical geometry to
`SpeechBobs.calculate_full_bubble_path_from_angle`. -/
def calculate_speech_bubble_path (angle_degrees : ℝ) (offset_x offset_y : ℝ)
    (tail_length : ℝ) : List PathSeg :=
  let ANGLE_RAD := radians angle_degrees
  let TIP_EXTENSION := tail_length
  let OFFSET_RAD := radians 5
  let CURVE_BEND_ANGLE := radians 2
  let curve_bend_radius_ratio : ℝ := 0.6
  let P1_X := (CENTER_X + offset_x) + RX * Real.sin (ANGLE_RAD - OFFSET_RAD)
  let P1_Y := (CENTER_Y + offset_y) - RY * Real.cos (ANGLE_RAD - OFFSET_RAD)
  let P2_X := (CENTER_X + offset_x) + RX * Real.sin (ANGLE_RAD + OFFSET_RAD)
  let P2_Y := (CENTER_Y + offset_y) - RY * Real.cos (ANGLE_RAD + OFFSET_RAD)
  let R_Tip := RX + TIP_EXTENSION
  let P_Tip_X := (CENTER_X + offset_x) + R_Tip * Real.sin ANGLE_RAD
  let P_Tip_Y := (CENTER_Y + offset_y) - R_Tip * Real.cos ANGLE_RAD
  let R_C1 := RX + TIP_EXTENSION * curve_bend_radius_ratio
  let Angle_C1 := ANGLE_RAD + CURVE_BEND_ANGLE
  let C1_X := (CENTER_X + offset_x) + R_C1 * Real.sin Angle_C1
  let C1_Y := (CENTER_Y + offset_y) - R_C1 * Real.cos Angle_C1
  let R_C2 := RX + TIP_EXTENSION * curve_bend_radius_ratio
  let Angle_C2 := ANGLE_RAD - CURVE_BEND_ANGLE
  let C2_X := (CENTER_X + offset_x) + R_C2 * Real.sin Angle_C2
  let C2_Y := (CENTER_Y + offset_y) - R_C2 * Real.cos Angle_C2
  [PathSeg.moveTo (P1_X, P1_Y),
    PathSeg.arcTo RX RY 0 true false (P2_X, P2_Y),
    PathSeg.quadTo (C1_X, C1_Y) (P_Tip_X, P_Tip_Y),
    PathSeg.quadTo (C2_X, C2_Y) (P1_X, P1_Y)]

/-- The 12 hand-tuned perimeter points of `calculate_cloud_path`. -/
def cloud_points (offset_x offset_y : ℝ) : List (ℝ × ℝ) :=
  let CX := CENTER_X + offset_x
  let CY := CENTER_Y + offset_y
  let R := CLOUD_RADIUS
  [(CX + R * 0.9, CY - R * 0.1),
    (CX + R * 0.8, CY - R * 0.4),
    (CX + R * 0.4, CY - R * 0.9),
    (CX + R * 0.1, CY - R * 0.8),
    (CX - R * 0.5, CY - R * 0.9),
    (CX - R * 0.9, CY - R * 0.5),
    (CX - R * 0.8, CY - R * 0.1),
    (CX - R * 0.9, CY + R * 0.5),
    (CX - R * 0.4, CY + R * 0.8),
    (CX + R * 0.1, CY + R * 0.9),
    (CX + R * 0.5, CY + R * 0.8),
    (CX + R * 0.9, CY + R * 0.4)]

/-- `calculate_cloud_path`: move to the first perimeter point, arc
(`A 30 30 0 0 0`) through the remaining points, and arc back to the first. -/
def calculate_cloud_path (offset_x offset_y : ℝ) : List PathSeg :=
  let pts := cloud_points offset_x offset_y
  PathSeg.moveTo (pts.headD (0, 0)) ::
    ((pts.drop 1).map (PathSeg.arcTo 30 30 0 false false) ++
      [PathSeg.arcTo 30 30 0 false false (pts.headD (0, 0))])

/-- `calculate_thought_bubble_tail`: the list of `(cx, cy, radius)` triples
for the three tail circles. -/
def calculate_thought_bubble_tail (angle_degrees : ℝ) (offset_x offset_y : ℝ)
    (tail_length : ℝ) : List (ℝ × ℝ × ℝ) :=
  let ANGLE_RAD := radians angle_degrees
  let NUM_CIRCLES : ℕ := 3
  let START_RADIUS := CLOUD_RADIUS + tail_length / (NUM_CIRCLES : ℝ)
  (List.range NUM_CIRCLES).map fun i =>
    let bubble_radius : ℝ := 5 + ((NUM_CIRCLES - 1 - i : ℕ) : ℝ) * 3
    let distance_from_center :=
      START_RADIUS + (i : ℝ) * (tail_length / (NUM_CIRCLES : ℝ))
    ((CENTER_X + offset_x) + distance_from_center * Real.sin ANGLE_RAD,
      (CENTER_Y + offset_y) - distance_from_center * Real.cos ANGLE_RAD,
      bubble_radius)

/-- Euclidean distance of a tail circle's center from the (offset) bubble
center. -/
def tailCircleDist (offset_x offset_y : ℝ) (t : ℝ × ℝ × ℝ) : ℝ :=
  vecNorm (t.1 - (CENTER_X + offset_x), t.2.1 - (CENTER_Y + offset_y))

end ThoughtBubble

namespace MakeComicPage

/- Auxiliary lemmas about the geometry helpers. -/

/-- For distinct endpoints the squared segment length is positive. -/
theorem sub_sq_sum_pos (p1 p2 : ℝ × ℝ) (h : p1 ≠ p2) :
    0 < (p2.1 - p1.1) ^ 2 + (p2.2 - p1.2) ^ 2 := by
  rcases lt_or_le 0 ((p2.1 - p1.1) ^ 2 + (p2.2 - p1.2) ^ 2) with hlt | hle
  · exact hlt
  · exfalso
    apply h
    have hx : p1.1 = p2.1 := by
      nlinarith [sq_nonneg (p2.1 - p1.1), sq_nonneg (p2.2 - p1.2)]
    have hy : p1.2 = p2.2 := by
      nlinarith [sq_nonneg (p2.1 - p1.1), sq_nonneg (p2.2 - p1.2)]
    exact Prod.ext hx hy

/-- Closed form for `get_normal_shift_vector` on the right side when the
endpoints differ. -/
theorem gnsv_right_eq (p1 p2 : ℝ × ℝ) (m : ℝ) (h : p1 ≠ p2) :
    get_normal_shift_vector p1 p2 m Dir.right =
      ((p2.2 - p1.2) / Real.sqrt ((p2.1 - p1.1) ^ 2 + (p2.2 - p1.2) ^ 2) * m,
        -(p2.1 - p1.1) / Real.sqrt ((p2.1 - p1.1) ^ 2 + (p2.2 - p1.2) ^ 2) *
          m) := by
  have hS := sub_sq_sum_pos p1 p2 h
  have hsq : (p2.2 - p1.2) ^ 2 + (-(p2.1 - p1.1)) ^ 2 =
      (p2.1 - p1.1) ^ 2 + (p2.2 - p1.2) ^ 2 := by ring
  have hA : Real.sqrt ((p2.2 - p1.2) ^ 2 + (-(p2.1 - p1.1)) ^ 2) ≠ 0 := by
    rw [hsq]
    exact ne_of_gt (Real.sqrt_pos.mpr hS)
  simp only [get_normal_shift_vector, eq_self_iff_true, if_true]
  rw [if_neg hA, hsq]

/-- Closed form for `get_normal_shift_vector` on the left side when the
endpoints differ. -/
theorem gnsv_left_eq (p1 p2 : ℝ × ℝ) (m : ℝ) (h : p1 ≠ p2) :
    get_normal_shift_vector p1 p2 m Dir.left =
      (-(p2.2 - p1.2) / Real.sqrt ((p2.1 - p1.1) ^ 2 + (p2.2 - p1.2) ^ 2) * m,
        (p2.1 - p1.1) / Real.sqrt ((p2.1 - p1.1) ^ 2 + (p2.2 - p1.2) ^ 2) *
          m) := by
  have hS := sub_sq_sum_pos p1 p2 h
  have hsq : (-(p2.2 - p1.2)) ^ 2 + (p2.1 - p1.1) ^ 2 =
      (p2.1 - p1.1) ^ 2 + (p2.2 - p1.2) ^ 2 := by ring
  have hA : Real.sqrt ((-(p2.2 - p1.2)) ^ 2 + (p2.1 - p1.1) ^ 2) ≠ 0 := by
    rw [hsq]
    exact ne_of_gt (Real.sqrt_pos.mpr hS)
  have hd : (Dir.left = Dir.right) = False := by simp
  simp only [get_normal_shift_vector, hd, if_false]
  rw [if_neg hA, hsq]

end MakeComicPage

/-!
Theorems settling the claims.
-/

namespace MakeComicPage

/-- C3: `get_line_intersection` returns `none` iff the direction vectors of
the two lines have zero cross product, and any returned point satisfies the
two line equations `a·x + b·y = c` built by the determinant method. -/
theorem lineIntersection_spec (p1 p2 p3 p4 : ℝ × ℝ) :
    (get_line_intersection p1 p2 p3 p4 = none ↔
      (p2.1 - p1.1) * (p4.2 - p3.2) - (p2.2 - p1.2) * (p4.1 - p3.1) = 0) ∧
    ∀ q, get_line_intersection p1 p2 p3 p4 = some q →
      (p2.2 - p1.2) * q.1 + (p1.1 - p2.1) * q.2 =
          (p2.2 - p1.2) * p1.1 + (p1.1 - p2.1) * p1.2 ∧
        (p4.2 - p3.2) * q.1 + (p3.1 - p4.1) * q.2 =
          (p4.2 - p3.2) * p3.1 + (p3.1 - p4.1) * p3.2 := by
  have hcross : (p2.2 - p1.2) * (p3.1 - p4.1) - (p4.2 - p3.2) * (p1.1 - p2.1) =
      (p2.1 - p1.1) * (p4.2 - p3.2) - (p2.2 - p1.2) * (p4.1 - p3.1) := by
    ring
  constructor
  · simp only [get_line_intersection]
    rw [hcross]
    split
    next hdet => simpa using hdet
    next hdet => simpa using hdet
  · intro q hq
    simp only [get_line_intersection] at hq
    split at hq
    · exact absurd hq (by simp)
    next hdet =>
      rw [Option.some.injEq] at hq
      subst hq
      constructor
      · field_simp
        ring
      · field_simp
        ring

/-- C3 witness: two concrete non-parallel lines do intersect. -/
theorem lineIntersection_spec_witness :
    get_line_intersection ((0 : ℝ), (0 : ℝ)) (1, 0) (0, 0) (0, 1) ≠ none := by
  intro hn
  have h := (lineIntersection_spec ((0 : ℝ), (0 : ℝ)) (1, 0) (0, 0) (0, 1)).1.mp
    hn
  norm_num at h

/-- C4 counterexample: with magnitude `m = -1` the returned shift vector has
Euclidean norm `1`, not `m`, so "norm exactly `m` for every magnitude" fails. -/
theorem unitNormal_norm_cex :
    vecNorm (get_normal_shift_vector ((0 : ℝ), (0 : ℝ)) (1, 0) (-1) Dir.right)
        = 1 ∧
      (1 : ℝ) ≠ -1 := by
  constructor
  · have h : ((0 : ℝ), (0 : ℝ)) ≠ ((1 : ℝ), (0 : ℝ)) := by
      norm_num [Prod.ext_iff]
    rw [gnsv_right_eq _ _ _ h]
    simp only [vecNorm]
    norm_num
  · norm_num

/-- C4 (amended): for distinct endpoints the right and left shift vectors
are exact opposites, and each has Euclidean norm `|m|` (equal to `m` for
non-negative magnitudes). -/
theorem unitNormal_sides (p1 p2 : ℝ × ℝ) (m : ℝ) (h : p1 ≠ p2) :
    get_normal_shift_vector p1 p2 m Dir.right =
        -get_normal_shift_vector p1 p2 m Dir.left ∧
      vecNorm (get_normal_shift_vector p1 p2 m Dir.right) = |m| ∧
      vecNorm (get_normal_shift_vector p1 p2 m Dir.left) = |m| := by
  have hS := sub_sq_sum_pos p1 p2 h
  have hA : (0 : ℝ) < Real.sqrt ((p2.1 - p1.1) ^ 2 + (p2.2 - p1.2) ^ 2) :=
    Real.sqrt_pos.mpr hS
  have hA2 : Real.sqrt ((p2.1 - p1.1) ^ 2 + (p2.2 - p1.2) ^ 2) ^ 2 =
      (p2.1 - p1.1) ^ 2 + (p2.2 - p1.2) ^ 2 :=
    Real.sq_sqrt (le_of_lt hS)
  have hSne : (p2.1 - p1.1) ^ 2 + (p2.2 - p1.2) ^ 2 ≠ 0 := ne_of_gt hS
  rw [gnsv_right_eq p1 p2 m h, gnsv_left_eq p1 p2 m h]
  refine ⟨?_, ?_, ?_⟩
  · rw [Prod.neg_mk, Prod.mk.injEq]
    constructor <;> ring
  · simp only [vecNorm]
    have harg : ((p2.2 - p1.2) / Real.sqrt ((p2.1 - p1.1) ^ 2 +
        (p2.2 - p1.2) ^ 2) * m) ^ 2 + (-(p2.1 - p1.1) / Real.sqrt
        ((p2.1 - p1.1) ^ 2 + (p2.2 - p1.2) ^ 2) * m) ^ 2 = m ^ 2 := by
      have hexp : ((p2.2 - p1.2) / Real.sqrt ((p2.1 - p1.1) ^ 2 +
          (p2.2 - p1.2) ^ 2) * m) ^ 2 + (-(p2.1 - p1.1) / Real.sqrt
          ((p2.1 - p1.1) ^ 2 + (p2.2 - p1.2) ^ 2) * m) ^ 2 =
          ((p2.1 - p1.1) ^ 2 + (p2.2 - p1.2) ^ 2) /
            Real.sqrt ((p2.1 - p1.1) ^ 2 + (p2.2 - p1.2) ^ 2) ^ 2 * m ^ 2 := by
        ring
      rw [hexp, hA2, div_self hSne, one_mul]
    rw [harg, Real.sqrt_sq_eq_abs]
  · simp only [vecNorm]
    have harg : (-(p2.2 - p1.2) / Real.sqrt ((p2.1 - p1.1) ^ 2 +
        (p2.2 - p1.2) ^ 2) * m) ^ 2 + ((p2.1 - p1.1) / Real.sqrt
        ((p2.1 - p1.1) ^ 2 + (p2.2 - p1.2) ^ 2) * m) ^ 2 = m ^ 2 := by
      have hexp : (-(p2.2 - p1.2) / Real.sqrt ((p2.1 - p1.1) ^ 2 +
          (p2.2 - p1.2) ^ 2) * m) ^ 2 + ((p2.1 - p1.1) / Real.sqrt
          ((p2.1 - p1.1) ^ 2 + (p2.2 - p1.2) ^ 2) * m) ^ 2 =
          ((p2.1 - p1.1) ^ 2 + (p2.2 - p1.2) ^ 2) /
            Real.sqrt ((p2.1 - p1.1) ^ 2 + (p2.2 - p1.2) ^ 2) ^ 2 * m ^ 2 := by
        ring
      rw [hexp, hA2, div_self hSne, one_mul]
    rw [harg, Real.sqrt_sq_eq_abs]

/-- C4 witness: the amended statement at the concrete segment (0,0)→(3,4)
with magnitude 2. -/
theorem unitNormal_sides_witness :
    ((0 : ℝ), (0 : ℝ)) ≠ ((3 : ℝ), (4 : ℝ)) ∧
      (get_normal_shift_vector ((0 : ℝ), (0 : ℝ)) (3, 4) 2 Dir.right =
          -get_normal_shift_vector ((0 : ℝ), (0 : ℝ)) (3, 4) 2 Dir.left ∧
        vecNorm (get_normal_shift_vector ((0 : ℝ), (0 : ℝ)) (3, 4) 2
          Dir.right) = |(2 : ℝ)| ∧
        vecNorm (get_normal_shift_vector ((0 : ℝ), (0 : ℝ)) (3, 4) 2
          Dir.left) = |(2 : ℝ)|) :=
  ⟨by norm_num [Prod.ext_iff],
    unitNormal_sides ((0 : ℝ), (0 : ℝ)) (3, 4) 2 (by norm_num [Prod.ext_iff])⟩

/-- C8: on a degenerate (zero-length) segment the guarded division makes
`get_normal_shift_vector` return the zero vector for either side, so the
function is total and the division branch is never taken there. -/
theorem unitNormal_degenerate (p : ℝ × ℝ) (m : ℝ) (d : Dir) :
    get_normal_shift_vector p p m d = (0, 0) := by
  cases d <;> simp [get_normal_shift_vector]

/-- C7: an unrecognized split style emits no polygon and returns the
unmodified right-edge coordinate `leftX + totalWidth`, so layout continues. -/
theorem splitPanels_unknown_style (x y w h g : ℝ) (ps : SplitParams)
    (st : SplitType) (h1 : st ≠ SplitType.straight)
    (h2 : st ≠ SplitType.arrow) (h3 : st ≠ SplitType.lightning) :
    (draw_split_panels x y w h g st ps).1 = [] ∧
      (draw_split_panels x y w h g st ps).2 = x + w := by
  cases st
  · exact absurd rfl h1
  · exact absurd rfl h2
  · exact absurd rfl h3
  · refine ⟨rfl, ?_⟩
    simp only [draw_split_panels, x_end_p2, x_start_p2, x_end_p1, P1_WIDTH]
    ring

/-- C7 witness: the unknown-style behavior at a concrete call. -/
theorem splitPanels_unknown_style_witness :
    (SplitType.other ≠ SplitType.straight ∧
        SplitType.other ≠ SplitType.arrow ∧
        SplitType.other ≠ SplitType.lightning) ∧
      (draw_split_panels 0 0 210 110 10 SplitType.other {}).1 = [] ∧
      (draw_split_panels 0 0 210 110 10 SplitType.other {}).2 =
        (0 : ℝ) + 210 :=
  ⟨⟨by decide, by decide, by decide⟩,
    splitPanels_unknown_style 0 0 210 110 10 {} SplitType.other (by decide)
      (by decide) (by decide)⟩

/-- C1 (amended): for every split style the two polygons span exactly
`totalWidth` (left outer edge at `leftX`, right outer edge at
`leftX + totalWidth`); for the straight and arrow styles the horizontal gap
between the inner boundary vertices at `y = topY` and at `y = bottomY` is
exactly the gutter.  (For the lightning style the gap at the top and bottom
edges differs from the gutter in general; see the counterexample.) -/
theorem splitPanels_span_gutter (x y w h g : ℝ) (ps : SplitParams)
    (hg : 0 ≤ g) (hgw : g < w) :
    (splitVertex x y w h g SplitType.straight ps 0 0 = (x, y) ∧
      splitVertex x y w h g SplitType.straight ps 0 3 = (x, y + h) ∧
      splitVertex x y w h g SplitType.straight ps 1 0 = (x + w, y) ∧
      splitVertex x y w h g SplitType.straight ps 1 1 = (x + w, y + h) ∧
      (splitVertex x y w h g SplitType.straight ps 0 1).2 = y ∧
      (splitVertex x y w h g SplitType.straight ps 1 4).2 = y ∧
      (splitVertex x y w h g SplitType.straight ps 1 4).1 -
        (splitVertex x y w h g SplitType.straight ps 0 1).1 = g ∧
      (splitVertex x y w h g SplitType.straight ps 0 2).2 = y + h ∧
      (splitVertex x y w h g SplitType.straight ps 1 3).2 = y + h ∧
      (splitVertex x y w h g SplitType.straight ps 1 3).1 -
        (splitVertex x y w h g SplitType.straight ps 0 2).1 = g) ∧
    (splitVertex x y w h g SplitType.arrow ps 0 0 = (x, y) ∧
      splitVertex x y w h g SplitType.arrow ps 0 4 = (x, y + h) ∧
      splitVertex x y w h g SplitType.arrow ps 1 0 = (x + w, y) ∧
      splitVertex x y w h g SplitType.arrow ps 1 1 = (x + w, y + h) ∧
      (splitVertex x y w h g SplitType.arrow ps 0 1).2 = y ∧
      (splitVertex x y w h g SplitType.arrow ps 1 5).2 = y ∧
      (splitVertex x y w h g SplitType.arrow ps 1 5).1 -
        (splitVertex x y w h g SplitType.arrow ps 0 1).1 = g ∧
      (splitVertex x y w h g SplitType.arrow ps 0 3).2 = y + h ∧
      (splitVertex x y w h g SplitType.arrow ps 1 3).2 = y + h ∧
      (splitVertex x y w h g SplitType.arrow ps 1 3).1 -
        (splitVertex x y w h g SplitType.arrow ps 0 3).1 = g) ∧
    (splitVertex x y w h g SplitType.lightning ps 0 0 = (x, y) ∧
      splitVertex x y w h g SplitType.lightning ps 0 5 = (x, y + h) ∧
      splitVertex x y w h g SplitType.lightning ps 1 0 = (x + w, y) ∧
      splitVertex x y w h g SplitType.lightning ps 1 1 = (x + w, y + h)) := by
  have hxe : x_end_p2 x w g = x + w := by
    simp only [x_end_p2, x_start_p2, x_end_p1, P1_WIDTH]
    ring
  refine ⟨?_, ?_, ?_⟩
  · simp only [splitVertex, splitPolys, draw_split_panels, List.filterMap,
      straight_p1_points, straight_p2_points, straight_P1_TOP_L,
      straight_P1_BOT_L, straight_P2_TOP_R, straight_P2_BOT_R, y_bottom,
      List.getD, hxe]
    norm_num
  · simp only [splitVertex, splitPolys, draw_split_panels, List.filterMap,
      arrow_p1_points, arrow_p2_points, arrow_P1_TOP_L, arrow_P1_MID_L,
      arrow_P1_BOT_L, arrow_P2_TOP_R, arrow_P2_MID_R, arrow_P2_BOT_R,
      y_bottom, List.getD, hxe]
    norm_num
  · simp only [splitVertex, splitPolys, draw_split_panels, List.filterMap,
      lightning_p1_points, lightning_p2_points, y_bottom, List.getD, hxe]
    norm_num

/-- C1 witness: the amended statement at a concrete call. -/
theorem splitPanels_span_gutter_witness :
    ((0 : ℝ) ≤ 10 ∧ (10 : ℝ) < 210) ∧
      (splitVertex 0 0 210 110 10 SplitType.straight {} 0 0 =
        ((0 : ℝ), (0 : ℝ))) :=
  ⟨⟨by norm_num, by norm_num⟩,
    ((splitPanels_span_gutter 0 0 210 110 10 {} (by norm_num)
      (by norm_num)).1).1⟩

/-- C1 counterexample: for the lightning style with `totalWidth = 210 >
gutter = 10 ≥ 0`, the two inner boundary vertices on the line `y = topY`
(the left polygon's `I_top` and the right polygon's `E_top`) are a
horizontal distance `25/2` apart, not the configured gutter `10`. -/
theorem splitPanels_lightning_gutter_cex :
    (splitVertex 0 0 210 110 10 SplitType.lightning lightningCexParams
        0 1).2 = 0 ∧
      (splitVertex 0 0 210 110 10 SplitType.lightning lightningCexParams
        1 6).2 = 0 ∧
      (splitVertex 0 0 210 110 10 SplitType.lightning lightningCexParams
          1 6).1 -
        (splitVertex 0 0 210 110 10 SplitType.lightning lightningCexParams
          0 1).1 = 25 / 2 ∧
      (25 / 2 : ℝ) ≠ 10 := by
  have hsqrt : Real.sqrt 2500 = 50 := by
    rw [show (2500 : ℝ) = 50 ^ 2 by norm_num]
    exact Real.sqrt_sq (by norm_num)
  have hA : lightning_A_C 0 0 210 110 10 lightningCexParams =
      ((0 : ℝ), (0 : ℝ)) := by
    norm_num [lightning_A_C, calc_x_ratio, P1_WIDTH, lightningCexParams]
  have hB : lightning_B_C 0 0 210 110 10 lightningCexParams =
      ((30 : ℝ), (40 : ℝ)) := by
    norm_num [lightning_B_C, calc_x_ratio, P1_WIDTH, lightningCexParams]
  have hC : lightning_C_C 0 0 210 110 10 lightningCexParams =
      ((70 : ℝ), (70 : ℝ)) := by
    norm_num [lightning_C_C, calc_x_ratio, P1_WIDTH, lightningCexParams]
  have hD : lightning_D_C 0 0 210 110 10 lightningCexParams =
      ((100 : ℝ), (110 : ℝ)) := by
    norm_num [lightning_D_C, calc_x_ratio, P1_WIDTH, y_bottom,
      lightningCexParams]
  have hSABR : lightning_S_AB_R 0 0 210 110 10 lightningCexParams =
      ((4 : ℝ), (-3 : ℝ)) := by
    rw [lightning_S_AB_R, hA, hB,
      gnsv_right_eq _ _ _ (by norm_num [Prod.ext_iff])]
    norm_num [hsqrt, Prod.ext_iff]
  have hSBCR : lightning_S_BC_R 0 0 210 110 10 lightningCexParams =
      ((3 : ℝ), (-4 : ℝ)) := by
    rw [lightning_S_BC_R, hB, hC,
      gnsv_right_eq _ _ _ (by norm_num [Prod.ext_iff])]
    norm_num [hsqrt, Prod.ext_iff]
  have hSCDR : lightning_S_CD_R 0 0 210 110 10 lightningCexParams =
      ((4 : ℝ), (-3 : ℝ)) := by
    rw [lightning_S_CD_R, hC, hD,
      gnsv_right_eq _ _ _ (by norm_num [Prod.ext_iff])]
    norm_num [hsqrt, Prod.ext_iff]
  have hSABL : lightning_S_AB_L 0 0 210 110 10 lightningCexParams =
      ((-4 : ℝ), (3 : ℝ)) := by
    rw [lightning_S_AB_L, hA, hB,
      gnsv_left_eq _ _ _ (by norm_num [Prod.ext_iff])]
    norm_num [hsqrt, Prod.ext_iff]
  have hSBCL : lightning_S_BC_L 0 0 210 110 10 lightningCexParams =
      ((-3 : ℝ), (4 : ℝ)) := by
    rw [lightning_S_BC_L, hB, hC,
      gnsv_left_eq _ _ _ (by norm_num [Prod.ext_iff])]
    norm_num [hsqrt, Prod.ext_iff]
  have hEraw : lightning_E_raw 0 0 210 110 10 lightningCexParams =
      ((4 : ℝ), (-3 : ℝ)) := by
    rw [lightning_E_raw, hA, hSABR]
    norm_num [add_shift]
  have hBpABR : lightning_B_prime_AB_R 0 0 210 110 10 lightningCexParams =
      ((34 : ℝ), (37 : ℝ)) := by
    rw [lightning_B_prime_AB_R, hB, hSABR]
    norm_num [add_shift]
  have hBpBCR : lightning_B_prime_BC_R 0 0 210 110 10 lightningCexParams =
      ((33 : ℝ), (36 : ℝ)) := by
    rw [lightning_B_prime_BC_R, hB, hSBCR]
    norm_num [add_shift]
  have hCpBCR : lightning_C_prime_BC_R 0 0 210 110 10 lightningCexParams =
      ((73 : ℝ), (66 : ℝ)) := by
    rw [lightning_C_prime_BC_R, hC, hSBCR]
    norm_num [add_shift]
  have hIraw : lightning_I_raw 0 0 210 110 10 lightningCexParams =
      ((-4 : ℝ), (3 : ℝ)) := by
    rw [lightning_I_raw, hA, hSABL]
    norm_num [add_shift]
  have hBpABL : lightning_B_prime_AB_L 0 0 210 110 10 lightningCexParams =
      ((26 : ℝ), (43 : ℝ)) := by
    rw [lightning_B_prime_AB_L, hB, hSABL]
    norm_num [add_shift]
  have hBpBCL : lightning_B_prime_BC_L 0 0 210 110 10 lightningCexParams =
      ((27 : ℝ), (44 : ℝ)) := by
    rw [lightning_B_prime_BC_L, hB, hSBCL]
    norm_num [add_shift]
  have hCpBCL : lightning_C_prime_BC_L 0 0 210 110 10 lightningCexParams =
      ((67 : ℝ), (74 : ℝ)) := by
    rw [lightning_C_prime_BC_L, hC, hSBCL]
    norm_num [add_shift]
  have hF : lightning_F 0 0 210 110 10 lightningCexParams =
      ((235 / 7 : ℝ), (255 / 7 : ℝ)) := by
    rw [lightning_F, hEraw, hBpABR, hBpBCR, hCpBCR]
    norm_num [get_line_intersection, Prod.ext_iff]
  have hJ : lightning_J 0 0 210 110 10 lightningCexParams =
      ((185 / 7 : ℝ), (305 / 7 : ℝ)) := by
    rw [lightning_J, hIraw, hBpABL, hBpBCL, hCpBCL]
    norm_num [get_line_intersection, Prod.ext_iff]
  have hxe : x_end_p2 (0 : ℝ) 210 10 = 210 := by
    norm_num [x_end_p2, x_start_p2, x_end_p1, P1_WIDTH]
  have hEtop : lightning_E_top 0 0 210 110 10 lightningCexParams =
      ((25 / 4 : ℝ), (0 : ℝ)) := by
    rw [lightning_E_top, hEraw, hF, hxe]
    norm_num [get_line_intersection, Prod.ext_iff]
  have hItop : lightning_I_top 0 0 210 110 10 lightningCexParams =
      ((-25 / 4 : ℝ), (0 : ℝ)) := by
    rw [lightning_I_top, hIraw, hJ, hxe]
    norm_num [get_line_intersection, Prod.ext_iff]
  have hv01 : splitVertex 0 0 210 110 10 SplitType.lightning
      lightningCexParams 0 1 = ((-25 / 4 : ℝ), (0 : ℝ)) := by
    simp only [splitVertex, splitPolys, draw_split_panels,
      lightning_p1_points]
    simp only [List.filterMap, List.getD, List.get?]
    simpa using hItop
  have hv16 : splitVertex 0 0 210 110 10 SplitType.lightning
      lightningCexParams 1 6 = ((25 / 4 : ℝ), (0 : ℝ)) := by
    simp only [splitVertex, splitPolys, draw_split_panels,
      lightning_p2_points]
    simp only [List.filterMap, List.getD, List.get?]
    simpa using hEtop
  rw [hv01, hv16]
  norm_num

/-- C6: a `[1,2,3]` page at 1920×1080 with margin 20, gutter 10 and no
split pairs emits exactly the background rectangle plus six panel
rectangles; every row has height `(1080 - 2·20 - (3-1)·10) / 3 = 340` and
within each row all panels share one width (1880, 935, 620 for the three
rows). -/
theorem layoutPage_123 :
    make_comic_page 1920 1080 [1, 2, 3] 20 10 [] SplitType.arrow {} =
      [Shape.rect (0, 0) (1920, 1080),
        Shape.rect (20, 20) (1880, (1080 - 2 * 20 - (3 - 1) * 10) / 3),
        Shape.rect (20, 370) (935, (1080 - 2 * 20 - (3 - 1) * 10) / 3),
        Shape.rect (965, 370) (935, (1080 - 2 * 20 - (3 - 1) * 10) / 3),
        Shape.rect (20, 720) (620, (1080 - 2 * 20 - (3 - 1) * 10) / 3),
        Shape.rect (650, 720) (620, (1080 - 2 * 20 - (3 - 1) * 10) / 3),
        Shape.rect (1280, 720) (620, (1080 - 2 * 20 - (3 - 1) * 10) / 3)] := by
  have h1stop : ∀ (st : SplitType) (ps : SplitParams) (x : ℝ),
      draw_cols 1 0 [] x 20 1880 340 10 st ps 1 = [] := by
    intro st ps x
    rw [draw_cols]
    norm_num
  have h1 : ∀ (st : SplitType) (ps : SplitParams),
      draw_cols 1 0 [] 20 20 1880 340 10 st ps 0 =
        [Shape.rect (20, 20) (1880, 340)] := by
    intro st ps
    rw [draw_cols]
    norm_num [h1stop]
  have h2stop : ∀ (st : SplitType) (ps : SplitParams) (x : ℝ),
      draw_cols 2 1 [] x 370 935 340 10 st ps 2 = [] := by
    intro st ps x
    rw [draw_cols]
    norm_num
  have h2b : ∀ (st : SplitType) (ps : SplitParams) (x : ℝ),
      draw_cols 2 1 [] x 370 935 340 10 st ps 1 =
        [Shape.rect (x, 370) (935, 340)] := by
    intro st ps x
    rw [draw_cols]
    norm_num [h2stop]
  have h2 : ∀ (st : SplitType) (ps : SplitParams),
      draw_cols 2 1 [] 20 370 935 340 10 st ps 0 =
        [Shape.rect (20, 370) (935, 340), Shape.rect (965, 370) (935, 340)] := by
    intro st ps
    rw [draw_cols]
    norm_num [h2b]
  have h3stop : ∀ (st : SplitType) (ps : SplitParams) (x : ℝ),
      draw_cols 3 2 [] x 720 620 340 10 st ps 3 = [] := by
    intro st ps x
    rw [draw_cols]
    norm_num
  have h3c : ∀ (st : SplitType) (ps : SplitParams) (x : ℝ),
      draw_cols 3 2 [] x 720 620 340 10 st ps 2 =
        [Shape.rect (x, 720) (620, 340)] := by
    intro st ps x
    rw [draw_cols]
    norm_num [h3stop]
  have h3b : ∀ (st : SplitType) (ps : SplitParams) (x : ℝ),
      draw_cols 3 2 [] x 720 620 340 10 st ps 1 =
        [Shape.rect (x, 720) (620, 340),
          Shape.rect (x + 630, 720) (620, 340)] := by
    intro st ps x
    rw [draw_cols]
    norm_num [h3c]
    ring
  have h3 : ∀ (st : SplitType) (ps : SplitParams),
      draw_cols 3 2 [] 20 720 620 340 10 st ps 0 =
        [Shape.rect (20, 720) (620, 340), Shape.rect (650, 720) (620, 340),
          Shape.rect (1280, 720) (620, 340)] := by
    intro st ps
    rw [draw_cols]
    norm_num [h3b]
  simp only [make_comic_page, draw_rows]
  norm_num [h1, h2, h3]

end MakeComicPage

/- Auxiliary lemmas about the bubble geometry. -/

/-- A parametric point `(cx + rx·s, cy - ry·c)` with `s² + c² = 1` lies on
the ellipse. -/
theorem ellipse_point (cx cy rx ry s c : ℝ) (hrx : rx ≠ 0) (hry : ry ≠ 0)
    (hsc : s ^ 2 + c ^ 2 = 1) :
    onEllipse cx cy rx ry (cx + rx * s, cy - ry * c) := by
  show ((cx + rx * s - cx) / rx) ^ 2 + ((cy - ry * c - cy) / ry) ^ 2 = 1
  have h1 : (cx + rx * s - cx) / rx = s := by
    field_simp
  have h2 : (cy - ry * c - cy) / ry = -c := by
    field_simp
    ring
  rw [h1, h2]
  linear_combination hsc

/-- Closed form for the `i`-th tail circle of
`ThoughtBubble.calculate_thought_bubble_tail`. -/
theorem tail_getD_eq (angle ox oy tl : ℝ) (i : ℕ) (hi : i < 3) :
    (ThoughtBubble.calculate_thought_bubble_tail angle ox oy tl).getD i
        (0, 0, 0) =
      ((ThoughtBubble.CENTER_X + ox) +
          (ThoughtBubble.CLOUD_RADIUS + tl / 3 + (i : ℝ) * (tl / 3)) *
            Real.sin (radians angle),
        (ThoughtBubble.CENTER_Y + oy) -
          (ThoughtBubble.CLOUD_RADIUS + tl / 3 + (i : ℝ) * (tl / 3)) *
            Real.cos (radians angle),
        5 + ((2 - i : ℕ) : ℝ) * 3) := by
  interval_cases i <;>
    simp [ThoughtBubble.calculate_thought_bubble_tail, List.range_succ]

/-- Distance of a tail circle built on the direction
`(sin α, -cos α)` at radius `d ≥ 0` from the (offset) bubble center. -/
theorem tailDist_eval (ox oy d α r : ℝ) (hd : 0 ≤ d) :
    ThoughtBubble.tailCircleDist ox oy
        ((ThoughtBubble.CENTER_X + ox) + d * Real.sin α,
          (ThoughtBubble.CENTER_Y + oy) - d * Real.cos α, r) = d := by
  show Real.sqrt ((((ThoughtBubble.CENTER_X + ox) + d * Real.sin α) -
      (ThoughtBubble.CENTER_X + ox)) ^ 2 +
      (((ThoughtBubble.CENTER_Y + oy) - d * Real.cos α) -
      (ThoughtBubble.CENTER_Y + oy)) ^ 2) = d
  have h1 : (((ThoughtBubble.CENTER_X + ox) + d * Real.sin α) -
      (ThoughtBubble.CENTER_X + ox)) ^ 2 +
      (((ThoughtBubble.CENTER_Y + oy) - d * Real.cos α) -
      (ThoughtBubble.CENTER_Y + oy)) ^ 2 = d ^ 2 := by
    have hsc := Real.sin_sq_add_cos_sq α
    linear_combination d ^ 2 * hsc
  rw [h1, Real.sqrt_sq hd]

/-- C9: for every angle, offset and tail length, the base points `P1` (the
path's move-to point) and `P2` (the arc endpoint) of both speech-bubble
path builders lie exactly on the ellipse of radii `RX = 150, RY = 100`
centered at the offset bubble center. -/
theorem speechBubble_base_points_on_ellipse (angle ox oy tl : ℝ) :
    onEllipse (SpeechBobs.CENTER_X + ox) (SpeechBobs.CENTER_Y + oy)
        SpeechBobs.RX SpeechBobs.RY
        (segPoint ((SpeechBobs.calculate_full_bubble_path_from_angle angle ox
          oy tl).getD 0 (PathSeg.moveTo (0, 0)))) ∧
      onEllipse (SpeechBobs.CENTER_X + ox) (SpeechBobs.CENTER_Y + oy)
        SpeechBobs.RX SpeechBobs.RY
        (segPoint ((SpeechBobs.calculate_full_bubble_path_from_angle angle ox
          oy tl).getD 1 (PathSeg.moveTo (0, 0)))) ∧
      onEllipse (ThoughtBubble.CENTER_X + ox) (ThoughtBubble.CENTER_Y + oy)
        ThoughtBubble.RX ThoughtBubble.RY
        (segPoint ((ThoughtBubble.calculate_speech_bubble_path angle ox oy
          tl).getD 0 (PathSeg.moveTo (0, 0)))) ∧
      onEllipse (ThoughtBubble.CENTER_X + ox) (ThoughtBubble.CENTER_Y + oy)
        ThoughtBubble.RX ThoughtBubble.RY
        (segPoint ((ThoughtBubble.calculate_speech_bubble_path angle ox oy
          tl).getD 1 (PathSeg.moveTo (0, 0)))) := by
  refine ⟨?_, ?_, ?_, ?_⟩
  · exact ellipse_point _ _ _ _ _ _ (by norm_num [SpeechBobs.RX])
      (by norm_num [SpeechBobs.RY])
      (Real.sin_sq_add_cos_sq (radians angle - radians 5))
  · exact ellipse_point _ _ _ _ _ _ (by norm_num [SpeechBobs.RX])
      (by norm_num [SpeechBobs.RY])
      (Real.sin_sq_add_cos_sq (radians angle + radians 5))
  · exact ellipse_point _ _ _ _ _ _ (by norm_num [ThoughtBubble.RX])
      (by norm_num [ThoughtBubble.RY])
      (Real.sin_sq_add_cos_sq (radians angle - radians 5))
  · exact ellipse_point _ _ _ _ _ _ (by norm_num [ThoughtBubble.RX])
      (by norm_num [ThoughtBubble.RY])
      (Real.sin_sq_add_cos_sq (radians angle + radians 5))

/-- C10: every bubble geometry computation is translation-equivariant in
its offset: the path (or tail-circle list) at offset `(ox, oy)` is the
zero-offset result translated componentwise, with tail radii unchanged.
In particular every shadow shape (offset `(shadowSize, shadowSize)`) is an
exact translate of its main shape (offset zero). -/
theorem bubble_translation_equivariance (angle ox oy tl : ℝ) :
    SpeechBobs.calculate_full_bubble_path_from_angle angle ox oy tl =
        (SpeechBobs.calculate_full_bubble_path_from_angle angle 0 0 tl).map
          (translateSeg (ox, oy)) ∧
      ThoughtBubble.calculate_speech_bubble_path angle ox oy tl =
        (ThoughtBubble.calculate_speech_bubble_path angle 0 0 tl).map
          (translateSeg (ox, oy)) ∧
      ThoughtBubble.calculate_cloud_path ox oy =
        (ThoughtBubble.calculate_cloud_path 0 0).map
          (translateSeg (ox, oy)) ∧
      ThoughtBubble.calculate_thought_bubble_tail angle ox oy tl =
        (ThoughtBubble.calculate_thought_bubble_tail angle 0 0 tl).map
          fun t => (t.1 + ox, t.2.1 + oy, t.2.2) := by
  refine ⟨?_, ?_, ?_, ?_⟩
  · simp [SpeechBobs.calculate_full_bubble_path_from_angle, translateSeg,
      translatePoint] <;> ring_nf <;> trivial
  · simp [ThoughtBubble.calculate_speech_bubble_path, translateSeg,
      translatePoint] <;> ring_nf <;> trivial
  · simp [ThoughtBubble.calculate_cloud_path, ThoughtBubble.cloud_points,
      translateSeg, translatePoint] <;> ring_nf <;> trivial
  · simp [ThoughtBubble.calculate_thought_bubble_tail, List.range_succ] <;>
      ring_nf <;> trivial

/-- C2 counterexample: at a concrete input, the tail circle at index 0 has
radius 11 while the circle at index 2 has radius 5, so index 0 does not
have the smallest radius of the three. -/
theorem thoughtTail_radii_cex :
    ((ThoughtBubble.calculate_thought_bubble_tail 0 0 0 15).getD 0
        (0, 0, 0)).2.2 = 11 ∧
      ((ThoughtBubble.calculate_thought_bubble_tail 0 0 0 15).getD 2
        (0, 0, 0)).2.2 = 5 ∧
      ¬((11 : ℝ) ≤ 5) := by
  refine ⟨?_, ?_, by norm_num⟩
  · rw [tail_getD_eq 0 0 0 15 0 (by norm_num)]
    norm_num
  · rw [tail_getD_eq 0 0 0 15 2 (by norm_num)]
    norm_num

/-- C2 (amended): the tail circle radii follow `radius = 5 + (2-i)·3` for
`i = 0..2`, i.e. the list of radii is `[11, 8, 5]`, so index 0 (nearest the
cloud body) has the largest radius, strictly larger than index 2's. -/
theorem thoughtTail_radii (angle ox oy tl : ℝ) :
    (ThoughtBubble.calculate_thought_bubble_tail angle ox oy tl).map
        (fun t => t.2.2) =
      [5 + (2 - 0) * 3, 5 + (2 - 1) * 3, 5 + (2 - 2) * 3] ∧
      ((ThoughtBubble.calculate_thought_bubble_tail angle ox oy tl).getD 2
          (0, 0, 0)).2.2 <
        ((ThoughtBubble.calculate_thought_bubble_tail angle ox oy tl).getD 0
          (0, 0, 0)).2.2 := by
  constructor
  · simp [ThoughtBubble.calculate_thought_bubble_tail, List.range_succ]
    norm_num
  · rw [tail_getD_eq angle ox oy tl 2 (by norm_num),
      tail_getD_eq angle ox oy tl 0 (by norm_num)]
    norm_num

/-- C5 counterexample: with `tailLength = 0` (a non-negative tail length)
the first two tail circles are at the same distance 130 from the bubble
center, so the distances are not strictly increasing in the index. -/
theorem thoughtTail_distances_cex :
    ThoughtBubble.tailCircleDist 0 0
        ((ThoughtBubble.calculate_thought_bubble_tail 0 0 0 0).getD 0
          (0, 0, 0)) = 130 ∧
      ThoughtBubble.tailCircleDist 0 0
        ((ThoughtBubble.calculate_thought_bubble_tail 0 0 0 0).getD 1
          (0, 0, 0)) = 130 ∧
      ¬((130 : ℝ) < 130) := by
  refine ⟨?_, ?_, by norm_num⟩
  · rw [tail_getD_eq 0 0 0 0 0 (by norm_num)]
    exact (tailDist_eval 0 0 _ _ _
      (by norm_num [ThoughtBubble.CLOUD_RADIUS])).trans
      (by norm_num [ThoughtBubble.CLOUD_RADIUS])
  · rw [tail_getD_eq 0 0 0 0 1 (by norm_num)]
    exact (tailDist_eval 0 0 _ _ _
      (by norm_num [ThoughtBubble.CLOUD_RADIUS])).trans
      (by norm_num [ThoughtBubble.CLOUD_RADIUS])

/-- C5 (amended): for every angle, offset and *strictly positive* tail
length the tail has exactly 3 circles, circle `i` lies at distance
`CLOUD_RADIUS + tailLength/3 + i·(tailLength/3)` from the offset bubble
center, and these distances are strictly increasing in the index.  (At
`tailLength = 0` the distances coincide; see the counterexample.) -/
theorem thoughtTail_distances (angle ox oy tl : ℝ) (h : 0 < tl) :
    (ThoughtBubble.calculate_thought_bubble_tail angle ox oy tl).length =
        3 ∧
      (∀ i : ℕ, i < 3 →
        ThoughtBubble.tailCircleDist ox oy
            ((ThoughtBubble.calculate_thought_bubble_tail angle ox oy
              tl).getD i (0, 0, 0)) =
          ThoughtBubble.CLOUD_RADIUS + tl / 3 + (i : ℝ) * (tl / 3)) ∧
      ∀ i j : ℕ, i < j → j < 3 →
        ThoughtBubble.tailCircleDist ox oy
            ((ThoughtBubble.calculate_thought_bubble_tail angle ox oy
              tl).getD i (0, 0, 0)) <
          ThoughtBubble.tailCircleDist ox oy
            ((ThoughtBubble.calculate_thought_bubble_tail angle ox oy
              tl).getD j (0, 0, 0)) := by
  have hdist : ∀ i : ℕ, i < 3 →
      ThoughtBubble.tailCircleDist ox oy
          ((ThoughtBubble.calculate_thought_bubble_tail angle ox oy
            tl).getD i (0, 0, 0)) =
        ThoughtBubble.CLOUD_RADIUS + tl / 3 + (i : ℝ) * (tl / 3) := by
    intro i hi
    rw [tail_getD_eq angle ox oy tl i hi]
    apply tailDist_eval
    have hi0 : (0 : ℝ) ≤ (i : ℝ) := Nat.cast_nonneg i
    have hmul : (0 : ℝ) ≤ (i : ℝ) * (tl / 3) :=
      mul_nonneg hi0 (by linarith)
    have hcr : ThoughtBubble.CLOUD_RADIUS = 130 := rfl
    rw [hcr]
    linarith
  refine ⟨?_, hdist, ?_⟩
  · simp [ThoughtBubble.calculate_thought_bubble_tail]
  · intro i j hij hj
    rw [hdist i (lt_trans hij hj), hdist j hj]
    have hcast : (i : ℝ) < (j : ℝ) := Nat.cast_lt.mpr hij
    have h3 : 0 < tl / 3 := by linarith
    nlinarith

/-- C5 witness: the amended statement at the concrete input
`angle = 0, offset = (0,0), tailLength = 15`. -/
theorem thoughtTail_distances_witness :
    (0 : ℝ) < 15 ∧
      ((ThoughtBubble.calculate_thought_bubble_tail 0 0 0 15).length = 3 ∧
        (∀ i : ℕ, i < 3 →
          ThoughtBubble.tailCircleDist 0 0
              ((ThoughtBubble.calculate_thought_bubble_tail 0 0 0
                15).getD i (0, 0, 0)) =
            ThoughtBubble.CLOUD_RADIUS + 15 / 3 + (i : ℝ) * (15 / 3)) ∧
        ∀ i j : ℕ, i < j → j < 3 →
          ThoughtBubble.tailCircleDist 0 0
              ((ThoughtBubble.calculate_thought_bubble_tail 0 0 0
                15).getD i (0, 0, 0)) <
            ThoughtBubble.tailCircleDist 0 0
              ((ThoughtBubble.calculate_thought_bubble_tail 0 0 0
                15).getD j (0, 0, 0))) :=
  ⟨by norm_num, thoughtTail_distances 0 0 0 15 (by norm_num)⟩
